import Mathlib

/-!
Shallow embedding of the Air Quality Platform mock service (main.py):
the data model, the random-series generators, the catalog queries over
the static station/alert collections, and the dual-format (PNG image +
chart-description document) visualization layer.

Modelling conventions:

* Wall-clock timestamps are hour offsets (`ℤ`) relative to the moment
  "now" of the call: `datetime.utcnow() + timedelta(hours=h)` becomes
  the integer `h`, and `datetime.utcnow() - timedelta(hours=h)` becomes
  `-h`.
* The process-wide random source is an oracle `g : ℕ → ℚ` giving the
  successive `random.random()` draws of one call, each in `[0,1)`;
  `random.uniform(a,b)` is `a + g i * (b - a)`.
* `math.sin(h/6.0)` is likewise an oracle `sn : ℕ → ℚ`: floating-point
  sine is not exactly representable and no verified property depends on
  its value, only on how the code combines it with the other terms.
* Python `round(x, 2)` is exact rational rounding half-to-even at two
  decimals (`pyRound2`); Python floats are abstracted as rationals.
* Python division that can raise `ZeroDivisionError` is modelled with
  `Option`: `none` is the raised exception.
* A rendered PNG is represented by the argument record handed to the
  drawing code (the literal x/y/sector/segment numbers used to draw),
  since the raster bytes themselves carry no further numeric content.
* Pollutant labels are `List Char` so that Python `str.upper` and
  `str.startswith` act on the character sequence exactly as in the
  source (for the ASCII labels the service uses).
-/

/-- Python `round(q*100)` at integer precision with round-half-to-even
(banker's rounding), the tie-breaking rule of Python 3 `round`. -/
def roundHalfEven (q : ℚ) : ℤ :=
  if q - ⌊q⌋ < 1/2 then ⌊q⌋
  else if 1/2 < q - ⌊q⌋ then ⌊q⌋ + 1
  else if ⌊q⌋ % 2 = 0 then ⌊q⌋ else ⌊q⌋ + 1

/-- Python `round(q, 2)`: round half-to-even at two decimal places. -/
def pyRound2 (q : ℚ) : ℚ :=
  ((roundHalfEven (q * 100) : ℤ) : ℚ) / 100

/-- Python `s.upper()` on a character sequence. -/
def pyUpper (l : List Char) : List Char :=
  l.map Char.toUpper

/-- Python `s.startswith("PM")` on a character sequence. -/
def startsWithPM (l : List Char) : Bool :=
  l.take 2 == ['P', 'M']

/-- A sensor descriptor dict of a `Station` entry:
`(pollutant, unit, sensor_id)`. -/
structure Sensor where
  pollutant : String
  unit : String
  sensor_id : String
deriving DecidableEq, Inhabited

/-- `Station` (main.py pydantic schema). -/
structure Station where
  station_id : String
  name : String
  lat : ℚ
  lon : ℚ
  region : String
  tags : List String
  sensors : List Sensor
deriving DecidableEq, Inhabited

/-- `ForecastPoint`: one element of `generate_forecasts` output. The
`ci_lower`/`ci_upper` fields are Optional in the pydantic schema but the
generator always populates them. -/
structure ForecastPoint where
  ts : ℤ
  value : ℚ
  ci_lower : ℚ
  ci_upper : ℚ
  model_version : String
deriving DecidableEq, Inhabited

/-- `TimeSeriesPoint`: one element of `generate_timeseries` output. -/
structure TimeSeriesPoint where
  ts : ℤ
  value : ℚ
  qa_flag : String
deriving DecidableEq, Inhabited

/-- `RiskScore`: one element of `generate_risk_scores` output. -/
structure RiskScore where
  pollutant : String
  score_0_100 : ℚ
  category : String
  threshold_used : ℚ
deriving DecidableEq, Inhabited

/-- `AttributionBreakdown`: one breakdown entry of
`generate_attribution` output. -/
structure AttributionBreakdown where
  source : String
  contribution_percent : ℚ
  value : ℚ
deriving DecidableEq, Inhabited

/-- `AttributionResponse`: the record `generate_attribution` returns. -/
structure AttributionResponse where
  pollutant : List Char
  total : ℚ
  breakdown : List AttributionBreakdown
deriving DecidableEq, Inhabited

/-- `AlertRecord` (main.py pydantic schema); `ts` is the hour offset of
the alert timestamp relative to process seed time. -/
structure AlertRecord where
  alert_id : String
  station_id : String
  pollutant : String
  threshold : ℚ
  observed_value : ℚ
  ts : ℤ
  status : String
deriving DecidableEq, Inhabited

/-- The static in-memory station collection `_STATIONS`. -/
def _STATIONS : List Station :=
  [{ station_id := "ST-DEL-001", name := "Delhi - ITO",
     lat := 28.6353, lon := 77.22496, region := "Delhi NCR",
     tags := ["urban"],
     sensors := [⟨"PM2.5", "ug/m3", "S1"⟩, ⟨"NO2", "ppb", "S2"⟩] },
   { station_id := "ST-DEL-002", name := "Gurgaon - Sector 14",
     lat := 28.4674, lon := 77.0266, region := "Delhi NCR",
     tags := ["suburban"],
     sensors := [⟨"PM2.5", "ug/m3", "S3"⟩] }]

/-- The static in-memory alert collection `_ALERTS`; the seeded alert's
`datetime.utcnow()` timestamp is offset `0`. -/
def _ALERTS : List AlertRecord :=
  [{ alert_id := "A-001", station_id := "ST-DEL-001", pollutant := "PM2.5",
     threshold := 60, observed_value := 82, ts := 0, status := "active" }]

/-- The pollutant-family baseline of `generate_forecasts`:
`80 if pollutant.upper().startswith("PM") else 30`. -/
def baseFor (pollutant : List Char) : ℚ :=
  if startsWithPM (pyUpper pollutant) then 80 else 30

/-- `generate_forecasts(station_id, pollutant, hours)`.  Iteration `h`
draws `random.random()` as `g h` and reads `math.sin(h/6.0)` as `sn h`;
`0.6` is `3/5`. -/
def generate_forecasts (station_id : String) (pollutant : List Char)
    (hours : ℕ) (sn g : ℕ → ℚ) : List ForecastPoint :=
  (List.range hours).map (fun h =>
    let noise := (sn h + g h * (3/5)) * 10
    let val := max 0 (pyRound2 (baseFor pollutant + noise))
    { ts := (h : ℤ), value := val,
      ci_lower := max 0 (pyRound2 (val - 8)),
      ci_upper := pyRound2 (val + 8),
      model_version := "mock-v0.3" })

/-- `generate_timeseries(station_id, pollutant, hours)`: the loop
`for h in range(hours, -1, -1)` emits, at 0-based iteration `i`, the
point with `h = hours - i`, timestamp `now - h` and value
`round(40 + random.random()*80, 2)`. -/
def generate_timeseries (station_id : Option String) (pollutant : List Char)
    (hours : ℕ) (g : ℕ → ℚ) : List TimeSeriesPoint :=
  (List.range (hours + 1)).map (fun (i : ℕ) =>
    { ts := (i : ℤ) - (hours : ℤ),
      value := pyRound2 (40 + g i * 80),
      qa_flag := "good" })

/-- The category expression of `generate_risk_scores`:
`"Low" if score < 33 else "Moderate" if score < 66 else "High"`. -/
def _riskCat (score : ℚ) : String :=
  if score < 33 then "Low" else if score < 66 then "Moderate" else "High"

/-- One row of `generate_risk_scores`: draw `i` is
`random.uniform(10, 90) = 10 + g i * 80`, rounded to two decimals. -/
def _riskRow (g : ℕ → ℚ) (i : ℕ) (pollutant : String) : RiskScore :=
  let score := pyRound2 (10 + g i * 80)
  { pollutant := pollutant, score_0_100 := score,
    category := _riskCat score,
    threshold_used := if startsWithPM pollutant.toList then 50 else 40 }

/-- The `for pollutant in [...]` loop of `generate_risk_scores`, with
the running draw index made explicit. -/
def _riskRows (g : ℕ → ℚ) : ℕ → List String → List RiskScore
  | _, [] => []
  | i, p :: ps => _riskRow g i p :: _riskRows g (i + 1) ps

/-- `generate_risk_scores(region)`. -/
def generate_risk_scores (region : String) (g : ℕ → ℚ) : List RiskScore :=
  _riskRows g 0 ["PM2.5", "PM10", "NO2", "O3"]

/-- The fixed source labels of `generate_attribution`. -/
def _ATTR_SOURCES : List String :=
  ["Traffic", "Industry", "Construction", "Residential", "Natural"]

/-- The body of `generate_attribution` after the magnitudes `vals` have
been drawn: sums them and converts each to its percentage share.  The
share division `v/total` raises `ZeroDivisionError` in Python when
`total == 0`; that exception is the `none` branch. -/
def attributionOfVals (pollutant : List Char) (vals : List ℚ) :
    Option AttributionResponse :=
  if vals.sum = 0 then none
  else some
    { pollutant := pollutant, total := pyRound2 vals.sum,
      breakdown := (_ATTR_SOURCES.zip vals).map (fun sv =>
        { source := sv.1,
          contribution_percent := pyRound2 (sv.2 / vals.sum * 100),
          value := pyRound2 (sv.2 / vals.sum * 100) }) }

/-- The magnitude draws of `generate_attribution`:
`vals = [random.uniform(10, 40) for _ in sources]`, i.e. five draws
`10 + g i * 30`. -/
def attrVals (g : ℕ → ℚ) : List ℚ :=
  (List.range 5).map (fun i => 10 + g i * 30)

/-- `generate_attribution(pollutant)`. -/
def generate_attribution (pollutant : List Char) (g : ℕ → ℚ) :
    Option AttributionResponse :=
  attributionOfVals pollutant (attrVals g)

/-- `list_stations(region, limit, offset)`: Python truthiness makes an
empty-string region behave like no filter; `results[offset:offset+limit]`
with non-negative bounds is drop-then-take. -/
def list_stations (region : Option String) (limit offset : ℕ) : List Station :=
  let results :=
    match region with
    | some r => if r = "" then _STATIONS
                else _STATIONS.filter (fun s => s.region == r)
    | none => _STATIONS
  (results.drop offset).take limit

/-- `list_alerts` generalized over the two module-level collections it
reads, so that the filtering logic can be stated for any catalog
contents (dangling station references included).  Python truthiness: an
empty-string region applies no filter; a datetime `since` is always
truthy. -/
def list_alerts_on (alerts : List AlertRecord) (stations : List Station)
    (region : Option String) (since : Option ℤ) : List AlertRecord :=
  let out1 :=
    match region with
    | some r =>
        if r = "" then alerts
        else alerts.filter (fun a =>
          stations.any (fun s => s.region == r && s.station_id == a.station_id))
    | none => alerts
  match since with
  | some t => out1.filter (fun a => decide (t ≤ a.ts))
  | none => out1

/-- `list_alerts(region, since)` on the seeded collections. -/
def list_alerts (region : Option String) (since : Option ℤ) : List AlertRecord :=
  list_alerts_on _ALERTS _STATIONS region since

/-- `ForecastResponse` of the `/api/v1/forecasts` endpoint. -/
structure ForecastResponse where
  station_id : String
  pollutant : List Char
  units : String
  horizon : String
  forecasts : List ForecastPoint

/-- `get_forecasts(station_id, pollutant, horizon)`: defaults the
station (Python `or` treats an empty string as absent), maps the
horizon label to an hour count, and selects units with the
case-sensitive check `pollutant.startswith("PM")`. -/
def get_forecasts (station_id : Option String) (pollutant : List Char)
    (horizon : String) (sn g : ℕ → ℚ) : ForecastResponse :=
  let st :=
    match station_id with
    | some s => if s = "" then (_STATIONS.headI).station_id else s
    | none => (_STATIONS.headI).station_id
  let hours : ℕ := if horizon = "7d" then 168 else if horizon = "72h" then 72 else 24
  { station_id := st, pollutant := pollutant,
    units := if startsWithPM pollutant then "ug/m3" else "ppb",
    horizon := horizon,
    forecasts := generate_forecasts st pollutant hours sn g }

/-- The argument record `viz_timeseries_png` passes to
`_line_plot_png`: the x/y lists drawn on the raster, plus titles. -/
structure LinePngArgs where
  x : List ℤ
  y : List ℚ
  title : String
  y_label : String

/-- `datetime.isoformat()` on a model timestamp: an injective textual
rendering of the hour offset. -/
def isoformat (t : ℤ) : String :=
  toString t

/-- `viz_timeseries_png(region, pollutant, hours)`: one
`generate_timeseries` call, projected to the plotted x/y lists. -/
def viz_timeseries_png (region : String) (pollutant : List Char)
    (hours : ℕ) (g : ℕ → ℚ) : LinePngArgs :=
  let series := generate_timeseries none pollutant hours g
  { x := series.map TimeSeriesPoint.ts,
    y := series.map TimeSeriesPoint.value,
    title := String.mk pollutant ++ " timeseries — " ++ region,
    y_label := "µg/m³" }

/-- The Plotly-like document of `viz_timeseries_json`: one named series
with x (isoformatted timestamps) and y. -/
structure LineDoc where
  x : List String
  y : List ℚ
  name : List Char
  title : String

/-- `viz_timeseries_json(region, pollutant, hours)`: one
`generate_timeseries` call, projected to the chart document. -/
def viz_timeseries_json (region : String) (pollutant : List Char)
    (hours : ℕ) (g : ℕ → ℚ) : LineDoc :=
  let series := generate_timeseries none pollutant hours g
  { x := series.map (fun p => isoformat p.ts),
    y := series.map TimeSeriesPoint.value,
    name := pollutant,
    title := String.mk pollutant ++ " Time Series (" ++ region ++ ")" }

/-- Python `max(xs)` on a list of rationals: first element wins ties,
later elements replace only when strictly greater.  (Python raises on an
empty list; the generators only apply this to non-empty lists, where the
`0` default is never consulted.) -/
def pyMaxQ : List ℚ → ℚ
  | [] => 0
  | x :: xs => xs.foldl (fun acc v => if acc < v then v else acc) x

/-- Python `max(scores, key=lambda s: s["score_0_100"])`: first maximal
element under the score key. -/
def pyMaxByScore : List RiskScore → RiskScore
  | [] => default
  | e :: es => es.foldl (fun acc v =>
      if acc.score_0_100 < v.score_0_100 then v else acc) e

/-- The argument record `viz_risk_dial_png` hands to `_risk_dial_png`:
the colored sector bounds and the needle value. -/
structure DialPngArgs where
  sectors : List (ℚ × ℚ × String)
  value_pct : ℚ
  title : String

/-- `viz_risk_dial_png(region)`: one `generate_risk_scores` call; the
dial needle is the maximum score, drawn over the fixed sector zones. -/
def viz_risk_dial_png (region : String) (g : ℕ → ℚ) : DialPngArgs :=
  let scores := generate_risk_scores region g
  { sectors := [(0, 33, "#2ca02c"), (33, 66, "#ffcc00"), (66, 100, "#d62728")],
    value_pct := pyMaxQ (scores.map RiskScore.score_0_100),
    title := "Risk (top) — " ++ region }

/-- The dial document of `viz_risk_dial_json`: top score value, its
pollutant label and the numeric thresholds. -/
structure DialDoc where
  value : ℚ
  label : String
  low : ℚ
  med : ℚ
  high : ℚ
  units : String

/-- `viz_risk_dial_json(region)`: one `generate_risk_scores` call; the
document carries the top-scoring entry and the literal thresholds. -/
def viz_risk_dial_json (region : String) (g : ℕ → ℚ) : DialDoc :=
  let scores := generate_risk_scores region g
  let top := pyMaxByScore scores
  { value := top.score_0_100, label := top.pollutant,
    low := 33, med := 66, high := 100, units := "score" }

/-- The stacked-bar drawing loop of `_attribution_png`: each entry
becomes a segment `(source, left, width)` with the running left offset
accumulated over preceding widths. -/
def attribution_segments : ℚ → List AttributionBreakdown → List (String × ℚ × ℚ)
  | _, [] => []
  | left, b :: bs =>
      (b.source, left, b.contribution_percent) ::
        attribution_segments (left + b.contribution_percent) bs

/-- The argument record `viz_attribution_png` hands to
`_attribution_png`: the drawn segments in left-to-right order. -/
structure BarPngArgs where
  segments : List (String × ℚ × ℚ)
  title : String

/-- `viz_attribution_png(pollutant)`: one `generate_attribution` call,
projected to the drawn stacked segments. -/
def viz_attribution_png (pollutant : List Char) (g : ℕ → ℚ) :
    Option BarPngArgs :=
  (generate_attribution pollutant g).map (fun attr =>
    { segments := attribution_segments 0 attr.breakdown,
      title := "Source Attribution — " ++ String.mk pollutant })

/-- The stacked-bar document of `viz_attribution_json`: the ordered
percentage list `x` and source-name list `name`. -/
structure BarDoc where
  x : List ℚ
  y : List (List Char)
  name : List String
  title : String

/-- `viz_attribution_json(pollutant)`: one `generate_attribution` call,
projected to the stacked-bar document. -/
def viz_attribution_json (pollutant : List Char) (g : ℕ → ℚ) :
    Option BarDoc :=
  (generate_attribution pollutant g).map (fun attr =>
    { x := attr.breakdown.map AttributionBreakdown.contribution_percent,
      y := [pollutant],
      name := attr.breakdown.map AttributionBreakdown.source,
      title := "Attribution — " ++ String.mk pollutant })

/-- The process-wide `random` module is one shared advancing stream: a
call that consumes `k` draws leaves every later caller the stream
shifted by `k`.  `generate_timeseries` with hour count `N` consumes
exactly `N + 1` draws, so serving a `.png` request and then a `.json`
request for the same chart parameters evaluates the two endpoints on
consecutive segments of the one shared stream: the image call reads
draws `g 0 .. g N` and the document call reads draws
`g (N+1) .. g (2N+1)`. -/
def viz_timeseries_png_then_json (region : String) (pollutant : List Char)
    (hours : ℕ) (g : ℕ → ℚ) : LinePngArgs × LineDoc :=
  (viz_timeseries_png region pollutant hours g,
   viz_timeseries_json region pollutant hours (fun i => g (i + (hours + 1))))

/-! ### Helper lemmas -/

lemma roundHalfEven_close (q : ℚ) : |(roundHalfEven q : ℚ) - q| ≤ 1/2 := by
  unfold roundHalfEven
  have h0 : (0 : ℚ) ≤ q - ⌊q⌋ := by
    have := Int.floor_le q
    linarith
  have h1 : q - ⌊q⌋ < 1 := by
    have := Int.lt_floor_add_one q
    push_cast at this
    linarith
  split_ifs with ha hb hc <;>
    (rw [abs_le]; constructor <;> push_cast <;> linarith)

lemma roundHalfEven_intCast (n : ℤ) : roundHalfEven (n : ℚ) = n := by
  unfold roundHalfEven
  rw [Int.floor_intCast]
  norm_num

lemma pyRound2_close (q : ℚ) : |pyRound2 q - q| ≤ 1/200 := by
  have key : pyRound2 q - q = ((roundHalfEven (q * 100) : ℚ) - q * 100) / 100 := by
    unfold pyRound2
    ring
  rw [key, abs_div, abs_of_pos (by norm_num : (0:ℚ) < 100),
    div_le_iff (by norm_num : (0:ℚ) < 100)]
  calc |(roundHalfEven (q * 100) : ℚ) - q * 100| ≤ 1/2 := roundHalfEven_close (q * 100)
    _ ≤ 1/200 * 100 := by norm_num

lemma pyRound2_intCast_div (k : ℤ) : pyRound2 ((k : ℚ) / 100) = (k : ℚ) / 100 := by
  unfold pyRound2
  rw [div_mul_cancel₀ _ (by norm_num : (100:ℚ) ≠ 0), roundHalfEven_intCast]

lemma pyRound2_int (n : ℤ) : pyRound2 (n : ℚ) = (n : ℚ) := by
  have h : ((n : ℚ)) = ((100 * n : ℤ) : ℚ) / 100 := by
    push_cast
    ring
  rw [h, pyRound2_intCast_div]

lemma pyRound2_shape (q : ℚ) : ∃ z : ℤ, pyRound2 q = (z : ℚ) / 100 :=
  ⟨roundHalfEven (q * 100), rfl⟩

lemma max_zero_div_hundred (z : ℤ) :
    max 0 ((z : ℚ) / 100) = ((max 0 z : ℤ) : ℚ) / 100 := by
  rw [Int.cast_max, ← max_div_div_right (by norm_num : (0:ℚ) ≤ 100)]
  norm_num

/-! ### Claim theorems -/

/-- Claim C2: for every forecast call with a non-negative hour count
`N`, `generate_forecasts` returns exactly `N` points whose timestamps
form the strictly increasing hourly grid starting at "now": point `h`
carries timestamp `now + h` hours for `h = 0 .. N-1`. -/
theorem forecast_hourly_grid (station_id : String) (pollutant : List Char)
    (N : ℕ) (sn g : ℕ → ℚ) :
    (generate_forecasts station_id pollutant N sn g).length = N
    ∧ (generate_forecasts station_id pollutant N sn g).map ForecastPoint.ts
        = (List.range N).map Int.ofNat := by
  constructor
  · simp [generate_forecasts]
  · simp only [generate_forecasts, List.map_map]
    rfl

/-- Claim C3 counterexample: with `hours = 1` the first point of
`generate_timeseries` carries timestamp `now - 1` hour, not "now" — the
emitted order is oldest-first (ascending), refuting the claimed
newest-first (descending) order. -/
theorem timeseries_order_counterexample :
    (generate_timeseries none ['P', 'M'] 1 (fun _ => 0)).map TimeSeriesPoint.ts = [-1, 0]
    ∧ (generate_timeseries none ['P', 'M'] 1 (fun _ => 0)).map TimeSeriesPoint.ts ≠ [0, -1] := by
  constructor
  · decide
  · decide

/-- Claim C3 (amended): for every observed time-series call with
`hours = N`, `generate_timeseries` returns exactly `N+1` points, one per
hour, spanning `now - N` hours up to "now" inclusive in ascending
order — point `i` carries timestamp `now - (N - i)` hours, so the first
point is the oldest and the last is at "now" — every point tagged with
the constant quality flag "good" and valued by an independent uniform
draw from the fixed range `[40, 120)`. -/
theorem timeseries_backward_window (station_id : Option String)
    (pollutant : List Char) (N : ℕ) (g : ℕ → ℚ) :
    (generate_timeseries station_id pollutant N g).length = N + 1
    ∧ (generate_timeseries station_id pollutant N g).map
        (fun p => (p.ts, p.value, p.qa_flag))
      = (List.range (N + 1)).map
          (fun (i : ℕ) => ((i : ℤ) - (N : ℤ), pyRound2 (40 + g i * 80), "good")) := by
  constructor
  · simp [generate_timeseries]
  · simp only [generate_timeseries, List.map_map]
    rfl

/-- Claim C9: `list_stations` pages the static station collection:
with a (non-empty, hence truthy) region filter it returns the exact
region matches sliced by offset and limit; an offset at or beyond the
filtered collection's size yields an empty page rather than an error;
on the two seeded stations, region "Delhi NCR" with limit 1 and
offset 0 returns exactly the first matching station, and offset 5
returns the empty list. -/
theorem stations_paging_spec :
    (∀ (r : String) (limit offset : ℕ), r ≠ "" →
        list_stations (some r) limit offset
          = ((_STATIONS.filter (fun s => s.region == r)).drop offset).take limit)
    ∧ (∀ (r : String) (limit offset : ℕ), r ≠ "" →
        (_STATIONS.filter (fun s => s.region == r)).length ≤ offset →
          list_stations (some r) limit offset = [])
    ∧ list_stations (some "Delhi NCR") 1 0 = _STATIONS.take 1
    ∧ list_stations (some "Delhi NCR") 50 5 = [] := by
  refine ⟨?_, ?_, by rfl, by rfl⟩
  · intro r limit offset hr
    simp [list_stations, hr]
  · intro r limit offset hr hlen
    simp [list_stations, hr, List.drop_eq_nil_of_le hlen]

/-- Claim C9 witness: the paging law evaluated at a concrete filter
with no matches and offset 0 — the page is empty, not an error. -/
theorem stations_paging_spec_witness :
    list_stations (some "Nowhere") 3 0 = [] :=
  stations_paging_spec.2.1 "Nowhere" 3 0 (by decide) (by decide)

/-- Claim C10: particulate-family detection is case-inconsistent. For
every pollutant label beginning with lowercase "pm", the generator's
upper-casing check selects the particulate baseline 80 (each forecast
value is built from base 80), while the endpoint's case-sensitive
`startswith("PM")` check reports the non-particulate units "ppb" on the
very same call. -/
theorem pm_prefix_case_mismatch (rest : List Char) (horizon : String)
    (sid : Option String) (sn g : ℕ → ℚ) :
    (get_forecasts sid ('p' :: 'm' :: rest) horizon sn g).units = "ppb"
    ∧ baseFor ('p' :: 'm' :: rest) = 80
    ∧ (get_forecasts sid ('p' :: 'm' :: rest) horizon sn g).forecasts.map
        ForecastPoint.value
      = (List.range (if horizon = "7d" then 168 else if horizon = "72h" then 72 else 24)).map
          (fun h => max 0 (pyRound2 (80 + (sn h + g h * (3/5)) * 10))) := by
  have h1 : Char.toUpper 'p' = 'P' := by decide
  have h2 : Char.toUpper 'm' = 'M' := by decide
  have hupper : pyUpper ('p' :: 'm' :: rest) = 'P' :: 'M' :: pyUpper rest := by
    simp [pyUpper, h1, h2]
  have hbase : baseFor ('p' :: 'm' :: rest) = 80 := by
    simp [baseFor, hupper, startsWithPM]
  have hunits : startsWithPM ('p' :: 'm' :: rest) = false := by
    simp [startsWithPM]
  refine ⟨?_, hbase, ?_⟩
  · simp [get_forecasts, hunits]
  · simp only [get_forecasts, generate_forecasts, hbase, List.map_map]
    rfl

lemma riskCat_spec (s : ℚ) :
    (_riskCat s = "Low" ↔ s < 33)
    ∧ (_riskCat s = "Moderate" ↔ 33 ≤ s ∧ s < 66)
    ∧ (_riskCat s = "High" ↔ 66 ≤ s) := by
  unfold _riskCat
  split_ifs with h1 h2
  · exact ⟨⟨fun _ => h1, fun _ => rfl⟩,
      ⟨fun hc => absurd hc (by decide), fun hs => absurd h1 (not_lt.mpr hs.1)⟩,
      ⟨fun hc => absurd hc (by decide),
       fun hs => absurd h1 (not_lt.mpr (le_trans (by norm_num) hs))⟩⟩
  · exact ⟨⟨fun hc => absurd hc (by decide), fun hlt => absurd hlt h1⟩,
      ⟨fun _ => ⟨not_lt.mp h1, h2⟩, fun _ => rfl⟩,
      ⟨fun hc => absurd hc (by decide), fun hs => absurd h2 (not_lt.mpr hs)⟩⟩
  · exact ⟨⟨fun hc => absurd hc (by decide), fun hlt => absurd hlt h1⟩,
      ⟨fun hc => absurd hc (by decide), fun hs => absurd hs.2 h2⟩,
      ⟨fun _ => not_lt.mp h2, fun _ => rfl⟩⟩

/-- Claim C5: in every risk score produced by `generate_risk_scores`,
the category is the pure cut-point function of the score:
"Low" iff `score < 33`, "Moderate" iff `33 ≤ score < 66`, "High" iff
`66 ≤ score` — exhaustive and mutually exclusive over the score range. -/
theorem risk_category_cutpoints (region : String) (g : ℕ → ℚ) :
    ∀ e ∈ generate_risk_scores region g,
      (e.category = "Low" ↔ e.score_0_100 < 33)
      ∧ (e.category = "Moderate" ↔ 33 ≤ e.score_0_100 ∧ e.score_0_100 < 66)
      ∧ (e.category = "High" ↔ 66 ≤ e.score_0_100) := by
  intro e he
  simp only [generate_risk_scores, _riskRows, List.mem_cons,
    List.not_mem_nil, or_false] at he
  rcases he with rfl | rfl | rfl | rfl <;> exact riskCat_spec _

/-- Claim C5 witness: the cut-point characterization evaluated at the
first entry generated for the all-zero random draw. -/
theorem risk_category_cutpoints_witness :
    ((_riskRow (fun _ => 0) 0 "PM2.5").category = "Low"
        ↔ (_riskRow (fun _ => 0) 0 "PM2.5").score_0_100 < 33)
    ∧ ((_riskRow (fun _ => 0) 0 "PM2.5").category = "Moderate"
        ↔ 33 ≤ (_riskRow (fun _ => 0) 0 "PM2.5").score_0_100
          ∧ (_riskRow (fun _ => 0) 0 "PM2.5").score_0_100 < 66)
    ∧ ((_riskRow (fun _ => 0) 0 "PM2.5").category = "High"
        ↔ 66 ≤ (_riskRow (fun _ => 0) 0 "PM2.5").score_0_100) :=
  risk_category_cutpoints "Delhi NCR" (fun _ => 0)
    (_riskRow (fun _ => 0) 0 "PM2.5") (by simp [generate_risk_scores, _riskRows])

/-- Claim C6: every point of `generate_forecasts` satisfies
`0 ≤ ci_lower ≤ value ≤ ci_upper`; the band is the fixed ±8 offset
around the value with the lower bound additionally floored at zero. -/
theorem forecast_ci_bracket (station_id : String) (pollutant : List Char)
    (hours : ℕ) (sn g : ℕ → ℚ) :
    ∀ p ∈ generate_forecasts station_id pollutant hours sn g,
      0 ≤ p.ci_lower ∧ p.ci_lower ≤ p.value ∧ p.value ≤ p.ci_upper
      ∧ p.ci_upper = p.value + 8 ∧ p.ci_lower = max 0 (p.value - 8) := by
  intro p hp
  rw [generate_forecasts] at hp
  obtain ⟨h, _, rfl⟩ := List.mem_map.mp hp
  obtain ⟨z, hz⟩ := pyRound2_shape (baseFor pollutant + (sn h + g h * (3/5)) * 10)
  simp only [hz]
  rw [max_zero_div_hundred z]
  have hw : (0 : ℤ) ≤ max 0 z := le_max_left 0 z
  have hwq : (0 : ℚ) ≤ ((max 0 z : ℤ) : ℚ) / 100 := by positivity
  have hup : pyRound2 (((max 0 z : ℤ) : ℚ) / 100 + 8)
      = ((max 0 z : ℤ) : ℚ) / 100 + 8 := by
    have : ((max 0 z : ℤ) : ℚ) / 100 + 8 = (((max 0 z + 800 : ℤ)) : ℚ) / 100 := by
      push_cast
      ring
    rw [this, pyRound2_intCast_div]
  have hlow : pyRound2 (((max 0 z : ℤ) : ℚ) / 100 - 8)
      = ((max 0 z : ℤ) : ℚ) / 100 - 8 := by
    have : ((max 0 z : ℤ) : ℚ) / 100 - 8 = (((max 0 z - 800 : ℤ)) : ℚ) / 100 := by
      push_cast
      ring
    rw [this, pyRound2_intCast_div]
  rw [hup, hlow]
  refine ⟨le_max_left _ _, max_le ?_ ?_, ?_, rfl, rfl⟩
  · exact hwq
  · linarith
  · linarith

/-- Claim C6 witness: the bracketing invariant applied to the first
point of a one-hour forecast for a non-particulate label under the
all-zero oracles. -/
theorem forecast_ci_bracket_witness :
    0 ≤ ((generate_forecasts "ST-DEL-001" ['X'] 1 (fun _ => 0) (fun _ => 0)).headI).ci_lower
    ∧ ((generate_forecasts "ST-DEL-001" ['X'] 1 (fun _ => 0) (fun _ => 0)).headI).ci_lower
        ≤ ((generate_forecasts "ST-DEL-001" ['X'] 1 (fun _ => 0) (fun _ => 0)).headI).value
    ∧ ((generate_forecasts "ST-DEL-001" ['X'] 1 (fun _ => 0) (fun _ => 0)).headI).value
        ≤ ((generate_forecasts "ST-DEL-001" ['X'] 1 (fun _ => 0) (fun _ => 0)).headI).ci_upper
    ∧ ((generate_forecasts "ST-DEL-001" ['X'] 1 (fun _ => 0) (fun _ => 0)).headI).ci_upper
        = ((generate_forecasts "ST-DEL-001" ['X'] 1 (fun _ => 0) (fun _ => 0)).headI).value + 8
    ∧ ((generate_forecasts "ST-DEL-001" ['X'] 1 (fun _ => 0) (fun _ => 0)).headI).ci_lower
        = max 0 (((generate_forecasts "ST-DEL-001" ['X'] 1 (fun _ => 0) (fun _ => 0)).headI).value - 8) :=
  forecast_ci_bracket "ST-DEL-001" ['X'] 1 (fun _ => 0) (fun _ => 0)
    ((generate_forecasts "ST-DEL-001" ['X'] 1 (fun _ => 0) (fun _ => 0)).headI)
    (by
      simp only [generate_forecasts]
      exact List.mem_of_mem_head? rfl)

lemma attrVals_eq (g : ℕ → ℚ) :
    attrVals g = [10 + g 0 * 30, 10 + g 1 * 30, 10 + g 2 * 30,
      10 + g 3 * 30, 10 + g 4 * 30] := rfl

lemma attrVals_sum_eq (g : ℕ → ℚ) :
    (attrVals g).sum = (10 + g 0 * 30) + (10 + g 1 * 30) + (10 + g 2 * 30)
      + (10 + g 3 * 30) + (10 + g 4 * 30) := by
  rw [attrVals_eq]
  simp [List.sum_cons]
  ring

lemma attrVals_sum_pos (g : ℕ → ℚ) (hg : ∀ i, 0 ≤ g i) :
    0 < (attrVals g).sum := by
  rw [attrVals_sum_eq]
  have h30 : (0:ℚ) ≤ 30 := by norm_num
  have h0 := mul_nonneg (hg 0) h30
  have h1 := mul_nonneg (hg 1) h30
  have h2 := mul_nonneg (hg 2) h30
  have h3 := mul_nonneg (hg 3) h30
  have h4 := mul_nonneg (hg 4) h30
  linarith

lemma attribution_some (pollutant : List Char) (g : ℕ → ℚ) (hg : ∀ i, 0 ≤ g i) :
    generate_attribution pollutant g = some
      { pollutant := pollutant, total := pyRound2 (attrVals g).sum,
        breakdown := [
          ⟨"Traffic", pyRound2 ((10 + g 0 * 30) / (attrVals g).sum * 100),
            pyRound2 ((10 + g 0 * 30) / (attrVals g).sum * 100)⟩,
          ⟨"Industry", pyRound2 ((10 + g 1 * 30) / (attrVals g).sum * 100),
            pyRound2 ((10 + g 1 * 30) / (attrVals g).sum * 100)⟩,
          ⟨"Construction", pyRound2 ((10 + g 2 * 30) / (attrVals g).sum * 100),
            pyRound2 ((10 + g 2 * 30) / (attrVals g).sum * 100)⟩,
          ⟨"Residential", pyRound2 ((10 + g 3 * 30) / (attrVals g).sum * 100),
            pyRound2 ((10 + g 3 * 30) / (attrVals g).sum * 100)⟩,
          ⟨"Natural", pyRound2 ((10 + g 4 * 30) / (attrVals g).sum * 100),
            pyRound2 ((10 + g 4 * 30) / (attrVals g).sum * 100)⟩] } := by
  have hne := ne_of_gt (attrVals_sum_pos g hg)
  simp only [generate_attribution, attributionOfVals]
  rw [if_neg hne]
  rfl

/-- Claim C7 counterexample: the drawn-magnitudes-to-breakdown body of
`generate_attribution` contains no zero-total guard — on the all-zero
magnitude vector the share division fails (Python `ZeroDivisionError`,
modelled as `none`) instead of emitting zero-percent shares. -/
theorem attribution_zero_total_counterexample :
    attributionOfVals ['P', 'M'] (List.replicate 5 0) = none := by
  simp [attributionOfVals, List.sum_replicate]

/-- Claim C7 (amended): `generate_attribution` never divides by zero in
actual operation — every drawn magnitude is at least 10, making the
total at least 50 and the division denominator nonzero, so the call
always succeeds; but the code has no explicit guard, and on an all-zero
magnitude vector the division would fail rather than emit zero-percent
shares. -/
theorem attribution_no_division_failure (pollutant : List Char)
    (g : ℕ → ℚ) (hg : ∀ i, 0 ≤ g i) :
    ∃ res, generate_attribution pollutant g = some res :=
  ⟨_, attribution_some pollutant g hg⟩

/-- Claim C7 witness: the all-zero random stream (each uniform draw at
its lower endpoint 10) yields a successful attribution response. -/
theorem attribution_no_division_failure_witness :
    ∃ res, generate_attribution ['P', 'M'] (fun _ => 0) = some res :=
  attribution_no_division_failure ['P', 'M'] (fun _ => 0) (fun _ => le_refl 0)

/-- Claim C4: for every attribution call (draws in the actual
non-negative range), the five contribution percentages sum to within
0.1 of 100, and each breakdown entry's `value` field numerically equals
its `contribution_percent` field. -/
theorem attribution_percentages (pollutant : List Char) (g : ℕ → ℚ)
    (hg : ∀ i, 0 ≤ g i) :
    ∃ res, generate_attribution pollutant g = some res
      ∧ |(res.breakdown.map AttributionBreakdown.contribution_percent).sum - 100| ≤ 1/10
      ∧ ∀ b ∈ res.breakdown, b.value = b.contribution_percent := by
  refine ⟨_, attribution_some pollutant g hg, ?_, ?_⟩
  · have hT := attrVals_sum_pos g hg
    have hne := ne_of_gt hT
    have key : (10 + g 0 * 30) / (attrVals g).sum * 100
        + (10 + g 1 * 30) / (attrVals g).sum * 100
        + (10 + g 2 * 30) / (attrVals g).sum * 100
        + (10 + g 3 * 30) / (attrVals g).sum * 100
        + (10 + g 4 * 30) / (attrVals g).sum * 100 = 100 := by
      field_simp
      rw [attrVals_sum_eq]
      ring
    have c0 := abs_le.mp (pyRound2_close ((10 + g 0 * 30) / (attrVals g).sum * 100))
    have c1 := abs_le.mp (pyRound2_close ((10 + g 1 * 30) / (attrVals g).sum * 100))
    have c2 := abs_le.mp (pyRound2_close ((10 + g 2 * 30) / (attrVals g).sum * 100))
    have c3 := abs_le.mp (pyRound2_close ((10 + g 3 * 30) / (attrVals g).sum * 100))
    have c4 := abs_le.mp (pyRound2_close ((10 + g 4 * 30) / (attrVals g).sum * 100))
    simp only [List.map_cons, List.map_nil, List.sum_cons, List.sum_nil]
    rw [abs_le]
    constructor
    · linarith [c0.1, c1.1, c2.1, c3.1, c4.1]
    · linarith [c0.2, c1.2, c2.2, c3.2, c4.2]
  · intro b hb
    simp only [List.mem_cons, List.not_mem_nil, or_false] at hb
    rcases hb with rfl | rfl | rfl | rfl | rfl <;> rfl

/-- Claim C4 witness: the percentage-sum and value-restatement facts at
the all-zero random stream (five equal draws of 10, five shares of
exactly 20 percent). -/
theorem attribution_percentages_witness :
    ∃ res, generate_attribution ['P', 'M'] (fun _ => 0) = some res
      ∧ |(res.breakdown.map AttributionBreakdown.contribution_percent).sum - 100| ≤ 1/10
      ∧ ∀ b ∈ res.breakdown, b.value = b.contribution_percent :=
  attribution_percentages ['P', 'M'] (fun _ => 0) (fun _ => le_refl 0)

/-- Claim C8: `list_alerts` filtering semantics, for any catalog
contents.  With a (truthy, i.e. non-empty) region filter, the result
holds exactly the alerts whose referenced station — looked up by
station id in the station collection — has that region; with a `since`
cutoff, exactly the alerts with timestamp at or after the cutoff.  An
alert whose station id resolves to no station cannot satisfy the
resolution conjunct, so it is excluded from region-filtered results,
and the call is a total function — it never fails. -/
theorem alerts_filter_spec :
    (∀ (alerts : List AlertRecord) (stations : List Station) (r : String)
        (since : Option ℤ) (a : AlertRecord), r ≠ "" →
      (a ∈ list_alerts_on alerts stations (some r) since
        ↔ a ∈ alerts
          ∧ (∃ s ∈ stations, s.region = r ∧ s.station_id = a.station_id)
          ∧ (∀ t, since = some t → t ≤ a.ts)))
    ∧ (∀ (alerts : List AlertRecord) (stations : List Station) (t : ℤ)
        (a : AlertRecord),
      a ∈ list_alerts_on alerts stations none (some t) ↔ a ∈ alerts ∧ t ≤ a.ts) := by
  constructor
  · intro alerts stations r since a hr
    cases since with
    | none =>
        simp only [list_alerts_on, hr, if_false, List.mem_filter, List.any_eq_true,
          Bool.and_eq_true, beq_iff_eq, Option.some.injEq, if_neg hr]
        constructor
        · rintro ⟨ha, s, hs, hreg, hid⟩
          exact ⟨ha, ⟨s, hs, hreg, hid⟩, fun t ht => nomatch ht⟩
        · rintro ⟨ha, ⟨s, hs, hreg, hid⟩, _⟩
          exact ⟨ha, s, hs, hreg, hid⟩
    | some t =>
        simp only [list_alerts_on, if_neg hr, List.mem_filter, List.any_eq_true,
          Bool.and_eq_true, beq_iff_eq, decide_eq_true_eq, Option.some.injEq]
        constructor
        · rintro ⟨⟨ha, s, hs, hreg, hid⟩, hts⟩
          refine ⟨ha, ⟨s, hs, hreg, hid⟩, fun u hu => ?_⟩
          cases hu
          exact hts
        · rintro ⟨ha, ⟨s, hs, hreg, hid⟩, hall⟩
          exact ⟨⟨ha, s, hs, hreg, hid⟩, hall t rfl⟩
  · intro alerts stations t a
    simp only [list_alerts_on, List.mem_filter, decide_eq_true_eq]

/-- Claim C8 witness: the seeded alert A-001 (station ST-DEL-001 in
region "Delhi NCR") is returned by a region-filtered, cutoff-free
`list_alerts` call on the seeded collections. -/
theorem alerts_filter_spec_witness :
    _ALERTS.headI ∈ list_alerts_on _ALERTS _STATIONS (some "Delhi NCR") none :=
  (alerts_filter_spec.1 _ALERTS _STATIONS "Delhi NCR" none _ALERTS.headI
      (by decide)).mpr
    ⟨by decide, ⟨_STATIONS.headI, List.mem_of_mem_head? rfl, rfl, rfl⟩,
     fun t ht => nomatch ht⟩

/-- Claim C1 (code bug): the spec requires the raster image and the
chart document of one render to be projections of one series, with
random values generated once and never regenerated separately for the
two output forms; but in the code each form is a separate endpoint that
independently calls the generator on the shared advancing random
source.  Serving the PNG and then the JSON document for the same
request (region "Delhi NCR", pollutant "PM2.5", hours 1) on the stream
whose first two draws are 0 and whose later draws are 1/2 plots the
image from y = [40, 40] while the document declares y = [80, 80]: the
two forms drift, and the document's pairs do not equal the literal
values used to draw the image. -/
theorem dual_render_drift :
    ((viz_timeseries_png_then_json "Delhi NCR" ['P', 'M', '2', '.', '5'] 1
        (fun i => if i < 2 then 0 else 1/2)).1).y = [40, 40]
    ∧ ((viz_timeseries_png_then_json "Delhi NCR" ['P', 'M', '2', '.', '5'] 1
        (fun i => if i < 2 then 0 else 1/2)).2).y = [80, 80]
    ∧ ((viz_timeseries_png_then_json "Delhi NCR" ['P', 'M', '2', '.', '5'] 1
        (fun i => if i < 2 then 0 else 1/2)).1).y
      ≠ ((viz_timeseries_png_then_json "Delhi NCR" ['P', 'M', '2', '.', '5'] 1
        (fun i => if i < 2 then 0 else 1/2)).2).y := by
  have h40 : pyRound2 40 = 40 := by
    have := pyRound2_int 40
    simpa using this
  have h80 : pyRound2 80 = 80 := by
    have := pyRound2_int 80
    simpa using this
  have h1 : ((viz_timeseries_png_then_json "Delhi NCR" ['P', 'M', '2', '.', '5'] 1
      (fun i => if i < 2 then 0 else 1/2)).1).y = [40, 40] := by
    simp [viz_timeseries_png_then_json, viz_timeseries_png, generate_timeseries,
      List.range_succ, h40]
  have h2 : ((viz_timeseries_png_then_json "Delhi NCR" ['P', 'M', '2', '.', '5'] 1
      (fun i => if i < 2 then 0 else 1/2)).2).y = [80, 80] := by
    simp [viz_timeseries_png_then_json, viz_timeseries_json, generate_timeseries,
      List.range_succ]
    norm_num [h80]
  refine ⟨h1, h2, ?_⟩
  rw [h1, h2]
  intro hcontra
  injection hcontra with hhead _
  exact absurd hhead (by norm_num)
